import Mathlib

set_option linter.unusedVariables false

/-!
Verification development for the per-network DNS resolver core
(res_cache.cpp, res_send.cpp, PrivateDnsConfiguration.cpp).

A DNS packet is modelled as a list of byte values (each 0..255).  The C
code walks packets with a cursor between a base and an end pointer; every
helper below receives the list of bytes from the cursor to the end of the
packet (suffix representation), and the few places that read fixed header
offsets from the base use List.getD on the whole packet.  Machine
arithmetic: the 32-bit FNV hash state is kept below 2^32 by reducing after
each multiplication; all other quantities are small enough that C int
arithmetic never wraps on the modelled paths.
-/

/-! ## Packet inspector (src/res_cache.cpp) -/

/-- One step of the 32-bit FNV-1a fold: hash = hash * FNV_MULT ^ byte,
with FNV_MULT = 16777619, in 32-bit unsigned arithmetic. -/
def fnvStep (hash v : Nat) : Nat := (hash * 16777619) % 4294967296 ^^^ v

/-- FNV_BASIS of src/res_cache.cpp. -/
def FNV_BASIS : Nat := 2166136261

/-- Source: _dnsPacket_checkBytes specialised to the two-byte TYPE and CLASS
constants.  On failure the cursor does not advance, which in the suffix
representation means the caller keeps using the unconsumed list. -/
def checkBytes2 (p0 p1 : Nat) : List Nat → Option (List Nat)
  | a :: b :: rest => if a = p0 ∧ b = p1 then some rest else none
  | _ => none

/-- Loop body of _dnsPacket_checkQName.  The fuel argument only bounds the
recursion; every iteration of the C loop consumes at least two bytes, so a
fuel of length + 1 is never exhausted. -/
def checkQNameGo : Nat → List Nat → Option (List Nat)
  | 0, _ => none
  | _ + 1, [] => none
  | fuel + 1, v :: rest =>
    if v = 0 then some rest
    else if 64 ≤ v then none
    else checkQNameGo fuel (rest.drop v)

/-- Source: _dnsPacket_checkQName.  Parses and skips an uncompressed QNAME;
returns the remaining bytes on success. -/
def _dnsPacket_checkQName (l : List Nat) : Option (List Nat) :=
  checkQNameGo (l.length + 1) l

/-- TYPE check of _dnsPacket_checkQR: the source tries the five two-byte
constants DNS_TYPE_A (0,1), DNS_TYPE_PTR (0,12), DNS_TYPE_MX (0,15),
DNS_TYPE_AAAA (0,28) and DNS_TYPE_ALL with _dnsPacket_checkBytes on the same
cursor position.  Note that the C literal for DNS_TYPE_ALL is the string
quote backslash 00 backslash 0377 quote, whose second character is the octal
escape backslash 037 (decimal 31), not 255, because a C octal escape takes at
most three digits; the comparison therefore accepts TYPE 31. -/
def checkType (l : List Nat) : Option (List Nat) :=
  match l with
  | a :: b :: rest =>
    if a = 0 ∧ (b = 1 ∨ b = 12 ∨ b = 15 ∨ b = 28 ∨ b = 31) then some rest else none
  | _ => none

/-- Source: _dnsPacket_checkQR.  QNAME, then a supported TYPE, then CLASS=IN. -/
def _dnsPacket_checkQR (l : List Nat) : Option (List Nat) :=
  match _dnsPacket_checkQName l with
  | none => none
  | some l1 =>
    match checkType l1 with
    | none => none
    | some l2 => checkBytes2 0 1 l2

/-- The qdCount iterations of the question-record check in _dnsPacket_checkQuery. -/
def checkQRLoop : Nat → List Nat → Bool
  | 0, _ => true
  | n + 1, l =>
    match _dnsPacket_checkQR l with
    | none => false
    | some l1 => checkQRLoop n l1

/-- Source: _dnsPacket_checkQuery.  Header constraints (QR, opcode, AA, RA, Z,
RCODE all zero; ANCOUNT = NSCOUNT = 0; ARCOUNT at most 1; QDCOUNT nonzero)
followed by the per-question checks.  Additional records are not walked. -/
def _dnsPacket_checkQuery (b : List Nat) : Bool :=
  if b.length < 12 then false
  else if ¬ (b.getD 2 0 &&& 0xFC = 0 ∧ b.getD 3 0 &&& 0xCF = 0) then false
  else
    let qdCount := b.getD 4 0 * 256 + b.getD 5 0
    let anCount := b.getD 6 0 * 256 + b.getD 7 0
    let dnCount := b.getD 8 0 * 256 + b.getD 9 0
    let arCount := b.getD 10 0 * 256 + b.getD 11 0
    if ¬ (anCount = 0 ∧ dnCount = 0 ∧ arCount ≤ 1) then false
    else if qdCount = 0 then false
    else checkQRLoop qdCount (b.drop 12)

/-- Source: _dnsPacket_hashBytes.  Faithful to the source, where the loop
condition is (numBytes > 0 && p < end) but numBytes is never decremented, so
any positive numBytes hashes every remaining byte up to the end of the
packet. -/
def _dnsPacket_hashBytes : Int → Nat → List Nat → Nat × List Nat
  | _, hash, [] => (hash, [])
  | numBytes, hash, v :: rest =>
    if 0 < numBytes then _dnsPacket_hashBytes numBytes (fnvStep hash v) rest
    else (hash, v :: rest)

/-- FNV fold over a finite list of bytes (the inner while of
_dnsPacket_hashQName that consumes one label). -/
def hashRange (hash : Nat) (bytes : List Nat) : Nat := bytes.foldl fnvStep hash

/-- Loop body of _dnsPacket_hashQName; fuel as in checkQNameGo.  The three
break paths of the C loop (cursor at end, zero label, oversized label,
label read-overflow) leave the cursor just past the byte that was read. -/
def hashQNameGo : Nat → Nat → List Nat → Nat × List Nat
  | 0, hash, l => (hash, l)
  | _ + 1, hash, [] => (hash, [])
  | fuel + 1, hash, v :: rest =>
    if v = 0 then (hash, rest)
    else if 64 ≤ v then (hash, rest)
    else if rest.length ≤ v then (hash, rest)
    else hashQNameGo fuel (hashRange hash (rest.take v)) (rest.drop v)

/-- Source: _dnsPacket_hashQName. -/
def _dnsPacket_hashQName (hash : Nat) (l : List Nat) : Nat × List Nat :=
  hashQNameGo (l.length + 1) hash l

/-- Source: _dnsPacket_readInt16.  Returns -1 without advancing the cursor
when fewer than two bytes remain. -/
def _dnsPacket_readInt16 : List Nat → Int × List Nat
  | a :: b :: rest => (((a * 256 + b : Nat) : Int), rest)
  | l => (-1, l)

/-- Source: _dnsPacket_hashQR (QNAME then the four TYPE and CLASS bytes;
because of the missing decrement in _dnsPacket_hashBytes the four-byte hash
actually consumes the rest of the packet). -/
def _dnsPacket_hashQR (hash : Nat) (l : List Nat) : Nat × List Nat :=
  let p1 := _dnsPacket_hashQName hash l
  _dnsPacket_hashBytes 4 p1.1 p1.2

/-- Source: _dnsPacket_hashRR (QR part, TTL, RDLENGTH, RDATA). -/
def _dnsPacket_hashRR (hash : Nat) (l : List Nat) : Nat × List Nat :=
  let p1 := _dnsPacket_hashQR hash l
  let p2 := _dnsPacket_hashBytes 4 p1.1 p1.2
  let rd := _dnsPacket_readInt16 p2.2
  _dnsPacket_hashBytes rd.1 p2.1 rd.2

/-- The QDCOUNT iterations of _dnsPacket_hashQuery. -/
def hashQRLoop : Nat → Nat → List Nat → Nat × List Nat
  | 0, hash, l => (hash, l)
  | n + 1, hash, l =>
    let p := _dnsPacket_hashQR hash l
    hashQRLoop n p.1 p.2

/-- The ARCOUNT iterations of _dnsPacket_hashQuery. -/
def hashRRLoop : Nat → Nat → List Nat → Nat × List Nat
  | 0, hash, l => (hash, l)
  | n + 1, hash, l =>
    let p := _dnsPacket_hashRR hash l
    hashRRLoop n p.1 p.2

/-- Source: _dnsPacket_hashQuery.  Skips the 16-bit id, hashes the RD bit of
header byte 2 and then continues from byte 3 (the TC bit, header byte 3,
counts, questions and additional records), as in the source. -/
def _dnsPacket_hashQuery (b : List Nat) : Nat :=
  let hash := fnvStep FNV_BASIS (b.getD 2 0 &&& 1)
  let p1 := _dnsPacket_hashBytes 1 hash (b.drop 3)
  let c := _dnsPacket_readInt16 p1.2
  let l := c.2.drop 4
  let a := _dnsPacket_readInt16 l
  let p2 := hashQRLoop c.1.toNat p1.1 a.2
  (hashRRLoop a.1.toNat p2.1 p2.2).1

/-- Loop body of _dnsPacket_isEqualDomainName; fuel as in checkQNameGo. -/
def isEqualDomainNameGo : Nat → List Nat → List Nat → Option (List Nat × List Nat)
  | 0, _, _ => none
  | fuel + 1, c1 :: r1, c2 :: r2 =>
    if c1 ≠ c2 then none
    else if c1 = 0 then some (r1, r2)
    else if 64 ≤ c1 then none
    else if r1.length < c1 ∨ r2.length < c1 then none
    else if r1.take c1 ≠ r2.take c1 then none
    else isEqualDomainNameGo fuel (r1.drop c1) (r2.drop c1)
  | _ + 1, _, _ => none

/-- Source: _dnsPacket_isEqualDomainName. -/
def _dnsPacket_isEqualDomainName (l1 l2 : List Nat) :
    Option (List Nat × List Nat) :=
  isEqualDomainNameGo (l1.length + 1) l1 l2

/-- Source: _dnsPacket_isEqualBytes. -/
def _dnsPacket_isEqualBytes (numBytes : Nat) (l1 l2 : List Nat) :
    Option (List Nat × List Nat) :=
  if numBytes ≤ l1.length ∧ numBytes ≤ l2.length ∧ l1.take numBytes = l2.take numBytes
  then some (l1.drop numBytes, l2.drop numBytes) else none

/-- Source: _dnsPacket_isEqualQR (domain name, then TYPE and CLASS). -/
def _dnsPacket_isEqualQR (l1 l2 : List Nat) : Option (List Nat × List Nat) :=
  match _dnsPacket_isEqualDomainName l1 l2 with
  | none => none
  | some p => _dnsPacket_isEqualBytes 4 p.1 p.2

/-- Source: _dnsPacket_isEqualRR (QR part, TTL, RDLENGTH, RDATA).  A negative
RDLENGTH (truncated record) would make the C code call memcmp with a huge
size_t, which is undefined; the model compares zero bytes in that case. -/
def _dnsPacket_isEqualRR (l1 l2 : List Nat) : Option (List Nat × List Nat) :=
  match _dnsPacket_isEqualQR l1 l2 with
  | none => none
  | some p =>
    match _dnsPacket_isEqualBytes 4 p.1 p.2 with
    | none => none
    | some p2 =>
      let rd1 := _dnsPacket_readInt16 p2.1
      let rd2 := _dnsPacket_readInt16 p2.2
      if rd1.1 ≠ rd2.1 then none
      else _dnsPacket_isEqualBytes rd1.1.toNat rd1.2 rd2.2

/-- The QDCOUNT iterations of _dnsPacket_isEqualQuery. -/
def isEqualQRLoop : Nat → List Nat → List Nat → Option (List Nat × List Nat)
  | 0, l1, l2 => some (l1, l2)
  | n + 1, l1, l2 =>
    match _dnsPacket_isEqualQR l1 l2 with
    | none => none
    | some p => isEqualQRLoop n p.1 p.2

/-- The ARCOUNT iterations of _dnsPacket_isEqualQuery. -/
def isEqualRRLoop : Nat → List Nat → List Nat → Option (List Nat × List Nat)
  | 0, l1, l2 => some (l1, l2)
  | n + 1, l1, l2 =>
    match _dnsPacket_isEqualRR l1 l2 with
    | none => none
    | some p => isEqualRRLoop n p.1 p.2

/-- Source: _dnsPacket_isEqualQuery.  Compares the RD bit of header byte 2,
all of header byte 3, QDCOUNT, ARCOUNT, the question records and the
additional records; the id and the TC bit are ignored. -/
def _dnsPacket_isEqualQuery (b1 b2 : List Nat) : Bool :=
  if b1.getD 2 0 &&& 1 ≠ b2.getD 2 0 &&& 1 then false
  else if b1.getD 3 0 ≠ b2.getD 3 0 then false
  else
    let c1 := _dnsPacket_readInt16 (b1.drop 4)
    let c2 := _dnsPacket_readInt16 (b2.drop 4)
    if c1.1 ≠ c2.1 ∨ c1.1 < 0 then false
    else
      let a1 := _dnsPacket_readInt16 (c1.2.drop 4)
      let a2 := _dnsPacket_readInt16 (c2.2.drop 4)
      if a1.1 ≠ a2.1 ∨ a1.1 < 0 then false
      else
        match isEqualQRLoop c1.1.toNat a1.2 a2.2 with
        | none => false
        | some p =>
          match isEqualRRLoop a1.1.toNat p.1 p.2 with
          | none => false
          | some _ => true

/-- Source: entry_equals (querylen comparison, then packet equality). -/
def entry_equals (q1 q2 : List Nat) : Bool :=
  (q1.length == q2.length) && _dnsPacket_isEqualQuery q1 q2

/-! ## Answer TTL extraction (src/res_cache.cpp answer_getTTL,
answer_getNegativeTTL)

The answer packet is parsed by the external libresolv routines ns_initparse,
ns_parserr and dn_skipname, which are not part of this repository; the
functions below therefore consume the parse outcome directly.  An answer
record contributes its TTL when ns_parserr succeeds; an authority record is
relevant only when ns_parserr succeeds, its type is SOA and its RDATA is long
enough to carry the MINIMUM field (otherwise the C loop continues). -/

/-- Parse outcome of one answer-section record: ns_parserr failure, or the
TTL read from the record. -/
inductive AnRR where
  | failed
  | ok (ttl : Nat)
deriving DecidableEq

/-- Parse outcome of one authority-section record.  The skipped constructor
covers every continue path of the C loop: ns_parserr failure, a record whose
type is not SOA, and an SOA whose RDATA cannot be walked to the MINIMUM
field.  The soa constructor carries the record TTL and the MINIMUM field. -/
inductive AuthRR where
  | skipped
  | soa (ttl minimum : Nat)
deriving DecidableEq

/-- Parsed DNS answer message: the answer section and the authority section
in wire order.  A packet that ns_initparse rejects is represented by none at
the call sites. -/
structure DnsMsg where
  an : List AnRR
  ns : List AuthRR
deriving DecidableEq

/-- Loop of answer_getNegativeTTL: n is the authority-record index, result
starts at 0; after computing rec_result = min(soa ttl, minimum field) the
source updates result only when n == 0 or rec_result < result. -/
def negTTLLoop : List AuthRR → Nat → Nat → Nat
  | [], _, result => result
  | AuthRR.skipped :: rest, n, result => negTTLLoop rest (n + 1) result
  | AuthRR.soa ttl minimum :: rest, n, result =>
    let rec_result := if minimum < ttl then minimum else ttl
    let result1 := if n = 0 ∨ rec_result < result then rec_result else result
    negTTLLoop rest (n + 1) result1

/-- Source: answer_getNegativeTTL. -/
def answer_getNegativeTTL (authority : List AuthRR) : Nat :=
  negTTLLoop authority 0 0

/-- Loop of answer_getTTL over the answer records (result starts at 0,
updated when n == 0 or ttl < result; ns_parserr failures are skipped). -/
def ansTTLLoop : List AnRR → Nat → Nat → Nat
  | [], _, result => result
  | AnRR.failed :: rest, n, result => ansTTLLoop rest (n + 1) result
  | AnRR.ok ttl :: rest, n, result =>
    let result1 := if n = 0 ∨ ttl < result then ttl else result
    ansTTLLoop rest (n + 1) result1

/-- Source: answer_getTTL.  Returns 0 when ns_initparse fails (argument
none); with zero answer records it falls back to the negative TTL from the
authority section. -/
def answer_getTTL : Option DnsMsg → Nat
  | none => 0
  | some m => if m.an.length = 0 then answer_getNegativeTTL m.ns else ansTTLLoop m.an 0 0

/-- Modelled from the spec: the claimed negative TTL, namely the smallest
value of min(soa.ttl, soa.minimum_field) over all SOA records of the
authority section (0 when there is none).  This definition follows the
words of the spec and is compared against answer_getNegativeTTL. -/
def spec_negativeTTL (authority : List AuthRR) : Nat :=
  match authority.filterMap
      (fun r => match r with
        | AuthRR.skipped => none
        | AuthRR.soa t m => some (min t m)) with
  | [] => 0
  | x :: xs => xs.foldl min x

/-! ## Answer cache data model (src/res_cache.cpp)

The C cache keeps every entry in one bucket chain of a 640-bucket hash table
and in a doubly linked MRU list.  An entry matching a key must have the same
32-bit hash, hence lives in the bucket of the key, and resolv_cache_add
never inserts an entry whose key already matches an existing entry, so at
any time at most one entry matches a given key.  The model therefore keeps
the entries in one list in MRU order (head = most recently used); lookups
search the whole list, which finds the same unique entry the bucket walk
finds, and evictions use the list order exactly as the C code uses the MRU
list.  num_entries always equals the length of that list in the source
(incremented in _cache_add_p, decremented in _cache_remove_p).  Allocation
failures (calloc returning NULL) are not modelled. -/

/-- Cache entry (struct Entry): hash of the query, owned query and answer
bytes, absolute expiry time and the debugging id. -/
structure Entry where
  hash : Nat
  query : List Nat
  answer : List Nat
  expires : Nat
  id : Nat
deriving DecidableEq

/-- Per-network cache (struct resolv_cache): capacity, entries in MRU order,
last_id, and the pending-request hashes in chain order. -/
structure Cache where
  max_entries : Nat
  entries : List Entry
  last_id : Nat
  pending : List Nat
deriving DecidableEq

/-- CONFIG_MAX_ENTRIES = 64 * 2 * 5. -/
def CONFIG_MAX_ENTRIES : Nat := 640

/-- Source: resolv_cache_create. -/
def resolv_cache_create : Cache :=
  { max_entries := CONFIG_MAX_ENTRIES, entries := [], last_id := 0, pending := [] }

/-- Match predicate of _cache_lookup_p: same hash value and entry_equals. -/
def entryMatches (e : Entry) (q : List Nat) : Bool :=
  (e.hash == _dnsPacket_hashQuery q) && entry_equals e.query q

/-- Source: _cache_lookup_p, as a search over the entry list (see the model
note above). -/
def cacheFind (c : Cache) (q : List Nat) : Option Entry :=
  c.entries.find? (fun e => entryMatches e q)

/-- Source: _cache_notify_waiting_tid_locked: remove the first pending
record with the hash of the key (if any) and wake the condition variable. -/
def notifyWaiting (c : Cache) (h : Nat) : Cache :=
  { c with pending := c.pending.erase h }

/-- Source: cache_flush_locked. -/
def cache_flush_locked (c : Cache) : Cache :=
  { c with entries := [], pending := [], last_id := 0 }

/-- Source: _cache_remove_expired (removes every entry with now >= expires). -/
def _cache_remove_expired (c : Cache) (now : Nat) : Cache :=
  { c with entries := c.entries.filter (fun e => decide (now < e.expires)) }

/-- Source: _cache_remove_oldest (removes the MRU tail). -/
def _cache_remove_oldest (c : Cache) : Cache :=
  { c with entries := c.entries.dropLast }

/-- The per-network registry: the res_cache_list of resolv_cache_info
records, restricted to the fields the cache operations read (netid and the
cache itself). -/
abbrev Registry := List (Nat × Cache)

/-- Source: find_named_cache_locked. -/
def find_named_cache (reg : Registry) (netid : Nat) : Option Cache :=
  match reg.find? (fun p => p.1 == netid) with
  | none => none
  | some p => some p.2

/-- In-place mutation of the cache of a network, as the C code does under
the global mutex. -/
def updateCache (reg : Registry) (netid : Nat) (c : Cache) : Registry :=
  reg.map (fun p => if p.1 == netid then (p.1, c) else p)

/-- The two ResNsendFlags bits the cache reads (ANDROID_RESOLV_NO_CACHE_STORE
and ANDROID_RESOLV_NO_CACHE_LOOKUP). -/
structure Flags where
  noCacheStore : Bool
  noCacheLookup : Bool
deriving DecidableEq

/-- ResolvCacheStatus of resolv_cache.h. -/
inductive ResolvCacheStatus where
  | UNSUPPORTED
  | NOTFOUND
  | FOUND
  | SKIP
deriving DecidableEq

/-- Result of resolv_cache_lookup: the status, the answer bytes copied into
the caller buffer (none when nothing was copied) and the registry after the
call. -/
structure LookupOut where
  status : ResolvCacheStatus
  answer : Option (List Nat)
  reg : Registry
deriving DecidableEq

/-- Source: resolv_cache_lookup.  The blocking branch (a pending record for
the same hash already exists) is modelled sequentially: with no concurrent
writer the 20 second wait times out, the key is looked up again, is still
absent, and NOTFOUND is returned with no new pending record (the
append_if_not_found walk found an existing record, so nothing was linked). -/
def resolv_cache_lookup (reg : Registry) (netid : Nat) (query : List Nat)
    (answersize : Nat) (flags : Flags) (now : Nat) : LookupOut :=
  if flags.noCacheLookup then
    { status := if flags.noCacheStore then .SKIP else .NOTFOUND, answer := none, reg := reg }
  else if ¬ _dnsPacket_checkQuery query then
    { status := .UNSUPPORTED, answer := none, reg := reg }
  else
    match find_named_cache reg netid with
    | none => { status := .UNSUPPORTED, answer := none, reg := reg }
    | some cache =>
      let h := _dnsPacket_hashQuery query
      match cacheFind cache query with
      | none =>
        if flags.noCacheStore then { status := .SKIP, answer := none, reg := reg }
        else if h ∈ cache.pending then
          { status := .NOTFOUND, answer := none, reg := reg }
        else
          { status := .NOTFOUND, answer := none,
            reg := updateCache reg netid { cache with pending := cache.pending ++ [h] } }
      | some e =>
        if e.expires ≤ now then
          { status := .NOTFOUND, answer := none,
            reg := updateCache reg netid
              { cache with entries := cache.entries.eraseP (fun x => entryMatches x query) } }
        else if answersize < e.answer.length then
          { status := .UNSUPPORTED, answer := none, reg := reg }
        else
          { status := .FOUND, answer := some e.answer,
            reg := updateCache reg netid
              { cache with entries := e :: cache.entries.eraseP (fun x => entryMatches x query) } }

/-- The eviction step of resolv_cache_add: when the cache is full, first
remove the expired entries and, if that did not help, the MRU tail. -/
def cacheEvictForAdd (cache : Cache) (now : Nat) : Cache :=
  if cache.max_entries ≤ cache.entries.length then
    let c1 := _cache_remove_expired cache now
    if c1.max_entries ≤ c1.entries.length then _cache_remove_oldest c1 else c1
  else cache

/-- Source: resolv_cache_add.  The answer is passed with its parse outcome
(ansParse), since answer_getTTL parses it through the external libresolv
reader.  Returns the C return value and the registry after the call. -/
def resolv_cache_add (reg : Registry) (netid : Nat) (query answer : List Nat)
    (ansParse : Option DnsMsg) (now : Nat) : Int × Registry :=
  if ¬ _dnsPacket_checkQuery query then (-22, reg)
  else
    match find_named_cache reg netid with
    | none => (-64, reg)
    | some cache =>
      let h := _dnsPacket_hashQuery query
      match cacheFind cache query with
      | some _ => (-17, updateCache reg netid (notifyWaiting cache h))
      | none =>
        let cache1 := cacheEvictForAdd cache now
        match cacheFind cache1 query with
        | some _ => (-17, updateCache reg netid (notifyWaiting cache1 h))
        | none =>
          let ttl := answer_getTTL ansParse
          let cache2 :=
            if 0 < ttl then
              { cache1 with
                entries :=
                  { hash := h, query := query, answer := answer,
                    expires := ttl + now, id := cache1.last_id + 1 } :: cache1.entries
                last_id := cache1.last_id + 1 }
            else cache1
          (0, updateCache reg netid (notifyWaiting cache2 h))

/-- Source: _resolv_cache_query_failed. -/
def _resolv_cache_query_failed (reg : Registry) (netid : Nat) (query : List Nat)
    (flags : Flags) : Registry :=
  if flags.noCacheStore || flags.noCacheLookup then reg
  else if ¬ _dnsPacket_checkQuery query then reg
  else
    match find_named_cache reg netid with
    | none => reg
    | some cache => updateCache reg netid (notifyWaiting cache (_dnsPacket_hashQuery query))

/-- Flush of the cache of one network (cache_flush_locked under the mutex,
as performed by network teardown and cache flushing). -/
def resolv_flush_cache_for_net (reg : Registry) (netid : Nat) : Registry :=
  match find_named_cache reg netid with
  | none => reg
  | some cache => updateCache reg netid (cache_flush_locked cache)

/-! ## Nameserver configuration and per-server statistics
(src/res_cache.cpp resolv_set_nameservers and helpers)

MAXNS and MAXDNSRCH come from the resolver parameter header, which is not
under src; modelled from the spec (platform MAXNS = 4 upstream servers,
MAXDNSRCH = 6 search domains).  Server address strings and domain strings
are opaque tokens; numeric-address parsing (getaddrinfo_numeric, an external
libc call) is an oracle predicate.  Only the sample_count and sample_next
fields of each res_stats slot are modelled, since the claims never read the
sample ring contents. -/

/-- Maximum number of upstream nameservers (MAXNS). -/
def MAXNS : Nat := 4

/-- Maximum number of search domains (MAXDNSRCH). -/
def MAXDNSRCH : Nat := 6

/-- Resolver params (res_params of the parameter header, fields as named in
the spec data model). -/
structure ResParams where
  sample_validity : Nat
  success_threshold : Nat
  min_samples : Nat
  max_samples : Nat
  base_timeout_msec : Nat
  retry_count : Nat
deriving DecidableEq

/-- The fields of resolv_cache_info touched by resolv_set_nameservers:
server list, server count, params, per-slot (sample_count, sample_next)
pairs, revision id and search domains. -/
structure CacheInfo where
  nameservers : List Nat
  nscount : Nat
  params : ResParams
  nsstats : List (Nat × Nat)
  revision_id : Nat
  search_domains : List Nat
deriving DecidableEq

/-- Source: res_cache_clear_stats_locked.  Faithful to the source, whose
loop body is

  for (int i = 0; i < MAXNS; ++i)
      cache_info->nsstats->sample_count = cache_info->nsstats->sample_next = 0;

the dereference does not use the index i, so every iteration clears slot 0
only. -/
def res_cache_clear_stats_locked (info : CacheInfo) : CacheInfo :=
  { info with nsstats := (List.range MAXNS).foldl (fun s _ => s.set 0 (0, 0)) info.nsstats }

/-- Source: free_nameservers_locked: for i below nscount it clears the
nameserver vector and zeroes nsstats[i] (correctly indexed there), then
zeroes nscount, calls res_cache_clear_stats_locked and bumps the revision
id. -/
def free_nameservers_locked (info : CacheInfo) : CacheInfo :=
  let info1 :=
    { info with
      nameservers := if info.nscount = 0 then info.nameservers else [],
      nsstats := (List.range info.nscount).foldl (fun s i => s.set i (0, 0)) info.nsstats }
  let info2 := res_cache_clear_stats_locked { info1 with nscount := 0 }
  { info2 with revision_id := info2.revision_id + 1 }

/-- Source: resolv_set_experiment_params with the configuration oracle
returning no override: retry_count 0 becomes RES_DFLRETRY = 2 and
base_timeout_msec 0 becomes RES_TIMEOUT = 5000. -/
def resolv_set_experiment_params (p : ResParams) : ResParams :=
  let p1 := if p.retry_count = 0 then { p with retry_count := 2 } else p
  if p1.base_timeout_msec = 0 then { p1 with base_timeout_msec := 5000 } else p1

/-- Source: resolv_is_nameservers_equal (std::set equality, hence
order-insensitive and duplicate-insensitive). -/
def resolv_is_nameservers_equal (oldServers newServers : List Nat) : Bool :=
  oldServers.all (fun x => x ∈ newServers) && newServers.all (fun x => x ∈ oldServers)

/-- Source: filter_nameservers (truncate to MAXNS). -/
def filter_nameservers (servers : List Nat) : List Nat := servers.take MAXNS

/-- Source: filter_domains (drop duplicates keeping the first occurrence,
cap at MAXDNSRCH; the per-domain length bound concerns string sizes, which
opaque tokens do not carry). -/
def filter_domains (domains : List Nat) : List Nat :=
  (domains.foldl (fun acc x => if x ∈ acc then acc else acc ++ [x]) []).take MAXDNSRCH

/-- Source: resolv_set_nameservers.  parseOk is the getaddrinfo_numeric
oracle; a parse failure of any server aborts with -EINVAL before any state
changes, and an unknown network returns -ENONET. -/
def resolv_set_nameservers (info : Option CacheInfo) (servers domains : List Nat)
    (params : ResParams) (parseOk : Nat → Bool) : Int × Option CacheInfo :=
  let nameservers := filter_nameservers servers
  if ¬ nameservers.all parseOk then (-22, info)
  else
    match info with
    | none => (-64, none)
    | some ci =>
      let old_max_samples := ci.params.max_samples
      let ci1 := { ci with params := resolv_set_experiment_params params }
      if ¬ resolv_is_nameservers_equal ci1.nameservers nameservers then
        let ci2 := free_nameservers_locked ci1
        let ci3 := { ci2 with nameservers := nameservers, nscount := nameservers.length }
        let ci4 := res_cache_clear_stats_locked ci3
        let ci5 := { ci4 with revision_id := ci4.revision_id + 1 }
        (0, some { ci5 with search_domains := filter_domains domains })
      else
        let ci2 :=
          if ci1.params.max_samples ≠ old_max_samples then
            let c := res_cache_clear_stats_locked ci1
            { c with revision_id := c.revision_id + 1 }
          else ci1
        (0, some { ci2 with search_domains := filter_domains domains })

/-! ## Private DNS validation tracker (src/PrivateDnsConfiguration.cpp)

DnsTlsServer and its comparators live in a header that is not under src;
modelled from the spec: a server is (address, SNI hostname, pinned
certificate), all opaque tokens here.  The tracker is a map keyed by the
server address only (the map comparator compares addresses), while operator
== compares the whole record; this is what makes the changed-entry branch
of recordPrivateDnsValidation (find succeeds but the stored key differs in
hostname or certificate) reachable. -/

/-- Validation states of the tracker. -/
inductive Validation where
  | in_process
  | success
  | fail
deriving DecidableEq

/-- Private DNS modes. -/
inductive PrivateDnsMode where
  | off
  | opportunistic
  | strict
deriving DecidableEq

/-- Private DNS server record (address, SNI hostname, pinned certificate). -/
structure DnsTlsServer where
  addr : Nat
  name : Nat
  certificate : Nat
deriving DecidableEq

/-- Tracker of one network: server to validation state, keyed by address. -/
abbrev Tracker := List (DnsTlsServer × Validation)

/-- Lookup with the map comparator (address only). -/
def trackerFind (t : Tracker) (server : DnsTlsServer) : Option (DnsTlsServer × Validation) :=
  t.find? (fun p => p.1.addr == server.addr)

/-- The map operator [] with the address comparator: overwrite the entry
whose key has the same address, or append a new entry. -/
def trackerInsert (t : Tracker) (server : DnsTlsServer) (v : Validation) : Tracker :=
  match t with
  | [] => [(server, v)]
  | p :: rest =>
    if p.1.addr == server.addr then (server, v) :: rest
    else p :: trackerInsert rest server v

/-- The PrivateDnsConfiguration state read by recordPrivateDnsValidation:
mPrivateDnsModes and mPrivateDnsTransports. -/
structure PDnsState where
  modes : List (Nat × PrivateDnsMode)
  transports : List (Nat × Tracker)
deriving DecidableEq

/-- Map lookup on the per-network association lists. -/
def pdnsFind {α : Type} (l : List (Nat × α)) (netId : Nat) : Option α :=
  match l.find? (fun p => p.1 == netId) with
  | none => none
  | some p => some p.2

/-- In-place update of one network entry. -/
def pdnsUpdate {α : Type} (l : List (Nat × α)) (netId : Nat) (a : α) : List (Nat × α) :=
  l.map (fun p => if p.1 == netId then (p.1, a) else p)

/-- Result of recordPrivateDnsValidation: the returned reevaluation flag,
the success value broadcast to the event listeners (on the two early-return
paths, where the network or its mode is gone, no event is broadcast and the
field simply carries the unchanged argument), and the state after the
call. -/
structure RecordOut where
  reevaluation : Bool
  reportedSuccess : Bool
  state : PDnsState
deriving DecidableEq

/-- Source: PrivateDnsConfiguration::recordPrivateDnsValidation.  When the
network or its mode is gone the state is untouched; when the server was
removed from the tracker, or the stored entry differs from the validated
server (hostname or certificate changed), the outcome is downgraded to a
failure and reevaluation is suppressed, and the tail of the function still
writes tracker[server], adding the server back or overwriting the changed
entry with Validation.fail. -/
def recordPrivateDnsValidation (st : PDnsState) (server : DnsTlsServer) (netId : Nat)
    (success : Bool) : RecordOut :=
  match pdnsFind st.transports netId with
  | none => { reevaluation := false, reportedSuccess := success, state := st }
  | some tracker =>
    match pdnsFind st.modes netId with
    | none => { reevaluation := false, reportedSuccess := success, state := st }
    | some mode =>
      let modeDoesReevaluation := mode = PrivateDnsMode.strict
      let reevaluationStatus := if success ∨ ¬ modeDoesReevaluation then false else true
      let raced : Bool :=
        match trackerFind tracker server with
        | none => true
        | some p => decide (p.1 ≠ server)
      let success1 := if raced then false else success
      let reeval1 := if raced then false else reevaluationStatus
      let newState : Validation :=
        if success1 then Validation.success
        else if reeval1 then Validation.in_process else Validation.fail
      { reevaluation := reeval1, reportedSuccess := success1,
        state := { st with
          transports := pdnsUpdate st.transports netId (trackerInsert tracker server newState) } }

/-! ## Send engine (src/res_send.cpp)

The retry loop of res_nsend (lines 479 to 579) is embedded over an oracle
trace of send outcomes: network and socket behaviour is outside the
program, so each send_dg or send_vc call is represented by the values it
can put into the out parameters the loop reads (the returned resplen, an
optional write to terrno, and for send_dg the v_circuit and gotsomewhere
flags).  Statistics recording (attempt 0 samples) has no effect on the
control flow or the returned error and is omitted here.  The loop itself is
embedded faithfully, including the attempt = retryTimes assignment on TCP,
the UDP-to-TCP fallback that retries the same server, and the useTcp reset
under TC_MODE_UDP_TCP.  The recursion carries an explicit fuel; theorems
are conditioned on the loop finishing within the fuel. -/

/-- PACKETSZ of arpa/nameser.h. -/
def PACKETSZ : Nat := 512

/-- Errno values used by the send engine. -/
def ETIMEDOUT : Nat := 110

/-- Errno ECONNREFUSED. -/
def ECONNREFUSED : Nat := 111

/-- Errno EMSGSIZE. -/
def EMSGSIZE : Nat := 90

/-- Inputs of the retry loop that are fixed over one res_nsend call. -/
structure SendConfig where
  retryTimes : Nat
  nscount : Nat
  usable : List Bool
  buflen : Nat
  tcModeUdpTcp : Bool
deriving DecidableEq

/-- Observable effects of one send_dg or send_vc call. -/
structure SendOutcome where
  resplen : Int
  setTerrno : Option Nat
  setVCircuit : Bool
  setGotsomewhere : Bool
deriving DecidableEq

/-- The mutable loop state res_nsend threads through the attempts. -/
structure SendSt where
  useTcp : Bool
  gotsomewhere : Bool
  terrno : Nat
deriving DecidableEq

/-- How one res_nsend call ends: an answer (resplen > 0), a fatal attempt
(resplen < 0, returning -terrno), or exhaustion of all retries. -/
inductive SendExit where
  | answered (resplen : Int)
  | failed (terrno : Nat)
  | exhausted (st : SendSt)
deriving DecidableEq

/-- The retry loop of res_nsend.  attempt and ns are the two loop indices;
k counts oracle calls; fuel bounds the recursion (none = fuel exhausted). -/
def sendLoopNs (cfg : SendConfig) (trace : Nat → SendOutcome) :
    Nat → Nat → Nat → SendSt → Nat → Option SendExit
  | 0, _, _, _, _ => none
  | fuel + 1, attempt, ns, st, k =>
    if cfg.nscount ≤ ns then
      if attempt + 1 < cfg.retryTimes then sendLoopNs cfg trace fuel (attempt + 1) 0 st k
      else some (.exhausted st)
    else if ¬ (cfg.usable.getD ns false) then sendLoopNs cfg trace fuel attempt (ns + 1) st k
    else
      let out := trace k
      if st.useTcp then
        let st1 := { st with terrno := out.setTerrno.getD st.terrno }
        let st2 :=
          if cfg.buflen ≤ PACKETSZ ∧ out.resplen ≤ 0 ∧ cfg.tcModeUdpTcp then
            { st1 with useTcp := false }
          else st1
        if out.resplen = 0 then sendLoopNs cfg trace fuel cfg.retryTimes (ns + 1) st2 (k + 1)
        else if out.resplen < 0 then some (.failed st2.terrno)
        else some (.answered out.resplen)
      else
        let st1 : SendSt :=
          { useTcp := st.useTcp || out.setVCircuit,
            gotsomewhere := st.gotsomewhere || out.setGotsomewhere,
            terrno := out.setTerrno.getD st.terrno }
        if out.resplen = 0 then sendLoopNs cfg trace fuel attempt (ns + 1) st1 (k + 1)
        else if st1.useTcp then sendLoopNs cfg trace fuel attempt ns st1 (k + 1)
        else if out.resplen < 0 then some (.failed st1.terrno)
        else some (.answered out.resplen)

/-- Entry into the retry loop: useTcp starts as (buflen > PACKETSZ),
gotsomewhere as 0 and terrno as ETIMEDOUT (res_send.cpp lines 480 to 482). -/
def res_nsend_tail (cfg : SendConfig) (trace : Nat → SendOutcome) (fuel : Nat) :
    Option SendExit :=
  let st0 : SendSt := { useTcp := PACKETSZ < cfg.buflen, gotsomewhere := false,
                        terrno := ETIMEDOUT }
  if cfg.retryTimes = 0 then some (.exhausted st0)
  else sendLoopNs cfg trace fuel 0 0 st0 0

/-- The value res_nsend returns for each exit, with the final errno
selection of lines 570 to 578: on exhaustion, terrno stays as recorded when
the query ended in TCP mode, and otherwise becomes ETIMEDOUT or
ECONNREFUSED depending on gotsomewhere. -/
def res_nsend_exit_value : SendExit → Int
  | .answered n => n
  | .failed t => -(t : Int)
  | .exhausted st =>
    -((if st.useTcp then st.terrno
       else if st.gotsomewhere then ETIMEDOUT else ECONNREFUSED : Nat) : Int)

/-- Source: get_timeout of src/res_send.cpp (the millisecond value; the
conversion to timespec keeps the same quantity). -/
def get_timeout (base_timeout_msec nscount ns : Nat) : Nat :=
  let msec := base_timeout_msec <<< ns
  let msec1 := if 0 < ns then msec / nscount else msec
  if msec1 < 1000 then 1000 else msec1

/-! ## Theorems -/

/-- Claim C2: with no answer records the TTL extraction is claimed to return
the smallest min(soa.ttl, soa.minimum_field) over all authority SOA records.
Counter-evidence against the code: for an answer whose authority section is
a non-SOA record followed by an SOA with TTL 50 and MINIMUM 60,
answer_getTTL returns 0 while the value the spec prescribes is 50, because
the n == 0 guard of answer_getNegativeTTL accepts a candidate from a later
record only when it is strictly below the running result, which starts at
0. -/
theorem answer_getTTL_misses_soa_after_non_soa :
    answer_getTTL (some { an := [], ns := [AuthRR.skipped, AuthRR.soa 50 60] }) = 0 ∧
    spec_negativeTTL [AuthRR.skipped, AuthRR.soa 50 60] = 50 ∧
    answer_getTTL (some { an := [], ns := [AuthRR.skipped, AuthRR.soa 50 60] }) ≠
      spec_negativeTTL [AuthRR.skipped, AuthRR.soa 50 60] := by decide

/-- Claim C6: the per-attempt timeout equals
max(1000, (base_timeout_msec shifted left by ns) / (1 if ns = 0 else N)),
and with base 5000 and N = 4 the four timeouts are 5000, 2500, 5000 and
10000 ms.  The bounds keep the C int arithmetic away from overflow. -/
theorem get_timeout_eq_spec_formula :
    (∀ base nscount ns, 0 < nscount → ns < nscount → nscount ≤ MAXNS → base ≤ 65535 →
      get_timeout base nscount ns =
        max 1000 ((base <<< ns) / (if ns = 0 then 1 else nscount))) ∧
    get_timeout 5000 4 0 = 5000 ∧ get_timeout 5000 4 1 = 2500 ∧
    get_timeout 5000 4 2 = 5000 ∧ get_timeout 5000 4 3 = 10000 := by
  refine ⟨?_, by decide, by decide, by decide, by decide⟩
  intro base nscount ns h1 h2 h3 h4
  simp only [get_timeout]
  by_cases h : ns = 0
  · subst h
    simp
    split <;> omega
  · rw [if_pos (Nat.pos_of_ne_zero h), if_neg h]
    split <;> omega

/-- Claim C6 witness at base 5000, four servers, server index 1. -/
theorem get_timeout_eq_spec_formula_witness :
    get_timeout 5000 4 1 = max 1000 ((5000 <<< 1) / (if 1 = 0 then 1 else 4)) :=
  get_timeout_eq_spec_formula.1 5000 4 1 (by decide) (by decide) (by decide) (by decide)

/-- Configuration state for the claim C4 evidence: two servers with
recorded samples in slots 0 and 1. -/
def c4Info : CacheInfo :=
  { nameservers := [1, 2], nscount := 2,
    params := { sample_validity := 1800, success_threshold := 75, min_samples := 8,
                max_samples := 8, base_timeout_msec := 5000, retry_count := 2 },
    nsstats := [(3, 1), (3, 2), (0, 0), (0, 0)], revision_id := 7, search_domains := [] }

/-- The same params with only max_samples changed. -/
def c4Params : ResParams :=
  { sample_validity := 1800, success_threshold := 75, min_samples := 8,
    max_samples := 16, base_timeout_msec := 5000, retry_count := 2 }

/-- Claim C4 (code bug evidence): calling resolv_set_nameservers with the
same servers in a different order (an equal set) and a changed max_samples
bumps the revision id from 7 to 8 as claimed, but clears only slot 0 of the
per-server statistics: slot 1 keeps sample_count 3 and sample_next 2,
because the loop of res_cache_clear_stats_locked never applies its index. -/
theorem resolv_set_nameservers_clears_only_slot0 :
    resolv_set_nameservers (some c4Info) [2, 1] [] c4Params (fun _ => true) =
      (0, some { c4Info with
                 params := c4Params
                 nsstats := [(0, 0), (3, 2), (0, 0), (0, 0)]
                 revision_id := 8 }) ∧
    ((resolv_set_nameservers (some c4Info) [2, 1] [] c4Params (fun _ => true)).2.getD
        c4Info).nsstats.getD 1 (0, 0) ≠ (0, 0) := by decide

/-- Private DNS state for the claim C3 evidence: network 5 in opportunistic
mode whose tracker no longer contains the validated server. -/
def c3State : PDnsState :=
  { modes := [(5, PrivateDnsMode.opportunistic)], transports := [(5, [])] }

/-- The server whose validation finished after it was removed. -/
def c3Server : DnsTlsServer := { addr := 1, name := 2, certificate := 3 }

/-- Claim C3 counterexample: when the validated server was removed from the
tracker, recordPrivateDnsValidation does report a failure, but it does not
leave the server-to-state map unchanged: the server is written back with
state fail. -/
theorem recordPrivateDnsValidation_race_cex :
    (recordPrivateDnsValidation c3State c3Server 5 true).reportedSuccess = false ∧
    (recordPrivateDnsValidation c3State c3Server 5 true).state ≠ c3State ∧
    (recordPrivateDnsValidation c3State c3Server 5 true).state.transports =
      [(5, [(c3Server, Validation.fail)])] := by decide

/-- Claim C3 as amended: when the validated server has been removed from
the tracker or replaced by a differing entry, the outcome is treated as a
failure (failure reported to the listeners, no reevaluation), and the
tracker entry for that server is written to Validation.fail (added back or
overwritten), the rest of the state being untouched. -/
theorem recordPrivateDnsValidation_race_records_fail (st : PDnsState)
    (server : DnsTlsServer) (netId : Nat) (success : Bool) (tracker : Tracker)
    (mode : PrivateDnsMode)
    (htr : pdnsFind st.transports netId = some tracker)
    (hmode : pdnsFind st.modes netId = some mode)
    (hrace : trackerFind tracker server = none ∨
      ∃ p, trackerFind tracker server = some p ∧ p.1 ≠ server) :
    (recordPrivateDnsValidation st server netId success).reportedSuccess = false ∧
    (recordPrivateDnsValidation st server netId success).reevaluation = false ∧
    (recordPrivateDnsValidation st server netId success).state.modes = st.modes ∧
    (recordPrivateDnsValidation st server netId success).state.transports =
      pdnsUpdate st.transports netId (trackerInsert tracker server Validation.fail) := by
  unfold recordPrivateDnsValidation
  rw [htr, hmode]
  rcases hrace with h | ⟨p, hp, hne⟩
  · simp [h]
  · simp [hp, hne]

/-- Claim C3 witness: the amended statement applied to the removed-server
state above. -/
theorem recordPrivateDnsValidation_race_records_fail_witness :
    (recordPrivateDnsValidation c3State c3Server 5 true).reportedSuccess = false ∧
    (recordPrivateDnsValidation c3State c3Server 5 true).reevaluation = false ∧
    (recordPrivateDnsValidation c3State c3Server 5 true).state.modes = c3State.modes ∧
    (recordPrivateDnsValidation c3State c3Server 5 true).state.transports =
      pdnsUpdate c3State.transports 5 (trackerInsert [] c3Server Validation.fail) :=
  recordPrivateDnsValidation_race_records_fail c3State c3Server 5 true []
    PrivateDnsMode.opportunistic (by decide) (by decide) (Or.inl (by decide))

/-- Claim C5 as amended: when the retry loop exhausts all servers while the
query is (still) in UDP mode, the value returned by res_nsend is -ETIMEDOUT
when gotsomewhere was set and -ECONNREFUSED when it never was. -/
theorem res_nsend_exhausted_udp_errno (cfg : SendConfig) (trace : Nat → SendOutcome)
    (fuel : Nat) (st : SendSt)
    (hrun : res_nsend_tail cfg trace fuel = some (SendExit.exhausted st))
    (hudp : st.useTcp = false) :
    res_nsend_exit_value (SendExit.exhausted st) =
      if st.gotsomewhere then -(ETIMEDOUT : Int) else -(ECONNREFUSED : Int) := by
  cases hg : st.gotsomewhere <;>
    simp [res_nsend_exit_value, hudp, hg]

/-- Claim C5 witness configuration: one usable server, a UDP query, one
retry. -/
def c5Cfg : SendConfig :=
  { retryTimes := 1, nscount := 1, usable := [true], buflen := 20, tcModeUdpTcp := false }

/-- Claim C5 witness trace: the poll times out (send_dg returns 0 with
rcode TIMEOUT after setting gotsomewhere). -/
def c5Trace : Nat → SendOutcome :=
  fun _ => { resplen := 0, setTerrno := none, setVCircuit := false, setGotsomewhere := true }

/-- Claim C5 witness: the amended statement at the timeout trace. -/
theorem res_nsend_exhausted_udp_errno_witness :
    res_nsend_exit_value
        (SendExit.exhausted { useTcp := false, gotsomewhere := true, terrno := ETIMEDOUT }) =
      if ({ useTcp := false, gotsomewhere := true, terrno := ETIMEDOUT } : SendSt).gotsomewhere
      then -(ETIMEDOUT : Int) else -(ECONNREFUSED : Int) :=
  res_nsend_exhausted_udp_errno c5Cfg c5Trace 5
    { useTcp := false, gotsomewhere := true, terrno := ETIMEDOUT } (by decide) (by decide)

/-- Claim C5 counterexample configuration: a TCP query (buflen above
PACKETSZ) against one usable server. -/
def c5CexCfg : SendConfig :=
  { retryTimes := 1, nscount := 1, usable := [true], buflen := 600, tcModeUdpTcp := false }

/-- Claim C5 counterexample trace: send_vc receives an undersized response,
stores EMSGSIZE into terrno and returns 0 (res_send.cpp lines 750 to 758);
the server answered something, yet gotsomewhere is never set on the TCP
path. -/
def c5CexTrace : Nat → SendOutcome :=
  fun _ => { resplen := 0, setTerrno := some EMSGSIZE, setVCircuit := false,
             setGotsomewhere := false }

/-- Claim C5 counterexample: with every retry exhausted on the TCP path,
res_nsend returns -EMSGSIZE, which is neither -ETIMEDOUT (what the claim
prescribes when a server responded with something) nor -ECONNREFUSED (what
it prescribes when none did): the final errno selection keeps the raw
terrno whenever the query ended in TCP mode. -/
theorem res_nsend_tcp_exhaustion_cex :
    res_nsend_tail c5CexCfg c5CexTrace 5 =
      some (SendExit.exhausted { useTcp := true, gotsomewhere := false, terrno := EMSGSIZE }) ∧
    res_nsend_exit_value
        (SendExit.exhausted { useTcp := true, gotsomewhere := false, terrno := EMSGSIZE }) =
      -(EMSGSIZE : Int) ∧
    -(EMSGSIZE : Int) ≠ -(ETIMEDOUT : Int) ∧ -(EMSGSIZE : Int) ≠ -(ECONNREFUSED : Int) := by
  decide

/-- Claim C10: a valid query looked up on a netid with no created cache
returns UNSUPPORTED (exactly the result an uncacheable query gets) with the
registry untouched, so no pending request is registered. -/
theorem resolv_cache_lookup_unknown_net_unsupported (reg : Registry) (netid : Nat)
    (query q2 : List Nat) (answersize now : Nat) (flags : Flags)
    (hnc : find_named_cache reg netid = none)
    (hq : _dnsPacket_checkQuery query = true)
    (hq2 : _dnsPacket_checkQuery q2 = false)
    (hfl : flags.noCacheLookup = false) :
    resolv_cache_lookup reg netid query answersize flags now =
      { status := ResolvCacheStatus.UNSUPPORTED, answer := none, reg := reg } ∧
    (resolv_cache_lookup reg netid q2 answersize flags now).status =
      ResolvCacheStatus.UNSUPPORTED := by
  constructor
  · unfold resolv_cache_lookup
    simp [hfl, hq, hnc]
  · unfold resolv_cache_lookup
    simp [hfl, hq2]

/-- A minimal cacheable query: id 0, all flag bits 0, one question with
name a, TYPE A, CLASS IN. -/
def qA : List Nat := [0, 0, 0, 0, 0, 1, 0, 0, 0, 0, 0, 0, 1, 97, 0, 0, 1, 0, 1]

/-- Claim C9: adding an answer for a query that already has a cache entry
returns -EEXIST, leaves the entries (hence the stored answer) untouched,
and still removes the matching pending record, which is the wake-up of the
waiters. -/
theorem resolv_cache_add_duplicate_eexist (reg : Registry) (netid : Nat)
    (q a : List Nat) (p : Option DnsMsg) (now : Nat) (cache : Cache) (e : Entry)
    (hfind : find_named_cache reg netid = some cache)
    (hq : _dnsPacket_checkQuery q = true)
    (hdup : cacheFind cache q = some e)
    (hfresh : now < e.expires) :
    resolv_cache_add reg netid q a p now =
      (-17, updateCache reg netid (notifyWaiting cache (_dnsPacket_hashQuery q))) ∧
    (notifyWaiting cache (_dnsPacket_hashQuery q)).entries = cache.entries := by
  refine ⟨?_, rfl⟩
  unfold resolv_cache_add
  simp [hq, hfind, hdup]

/-- The unexpired entry already cached for qA. -/
def c9Entry : Entry :=
  { hash := _dnsPacket_hashQuery qA, query := qA, answer := [1, 2], expires := 100, id := 1 }

/-- A cache holding c9Entry and a pending record for qA. -/
def c9Cache : Cache :=
  { max_entries := 640, entries := [c9Entry], last_id := 1,
    pending := [_dnsPacket_hashQuery qA] }

/-- Registry of network 30 for the claim C9 witness. -/
def c9Reg : Registry := [(30, c9Cache)]

/-- Claim C9 witness: the duplicate add on network 30 at time 5. -/
theorem resolv_cache_add_duplicate_eexist_witness :
    resolv_cache_add c9Reg 30 qA [9] none 5 =
      (-17, updateCache c9Reg 30 (notifyWaiting c9Cache (_dnsPacket_hashQuery qA))) ∧
    (notifyWaiting c9Cache (_dnsPacket_hashQuery qA)).entries = c9Cache.entries :=
  resolv_cache_add_duplicate_eexist c9Reg 30 qA [9] none 5 c9Cache c9Entry
    (by decide) (by decide) (by decide) (by decide)

/-- Claim C10 witness: network 30 has no cache in the empty registry; qA is
valid, the empty packet is not. -/
theorem resolv_cache_lookup_unknown_net_unsupported_witness :
    resolv_cache_lookup [] 30 qA 100 { noCacheStore := false, noCacheLookup := false } 0 =
      { status := ResolvCacheStatus.UNSUPPORTED, answer := none, reg := [] } ∧
    (resolv_cache_lookup [] 30 [] 100 { noCacheStore := false, noCacheLookup := false } 0).status =
      ResolvCacheStatus.UNSUPPORTED :=
  resolv_cache_lookup_unknown_net_unsupported [] 30 qA [] 100 0
    { noCacheStore := false, noCacheLookup := false }
    (by decide) (by decide) (by decide) (by decide)

/-- Entries surviving the eviction step are entries of the original cache. -/
theorem cacheEvictForAdd_mem (cache : Cache) (now : Nat) (e : Entry)
    (he : e ∈ (cacheEvictForAdd cache now).entries) : e ∈ cache.entries := by
  unfold cacheEvictForAdd at he
  split at he
  · dsimp only at he
    split at he
    · exact List.mem_of_mem_filter (List.dropLast_sublist _ |>.mem he)
    · exact List.mem_of_mem_filter he
  · exact he

/-- A key absent before eviction is still absent afterwards. -/
theorem cacheFind_evict_none (cache : Cache) (now : Nat) (q : List Nat)
    (h : cacheFind cache q = none) : cacheFind (cacheEvictForAdd cache now) q = none := by
  unfold cacheFind at *
  rw [List.find?_eq_none] at *
  intro e he
  exact h e (cacheEvictForAdd_mem cache now e he)

/-- Updating the cache of a network replaces what find_named_cache returns. -/
theorem find_named_cache_updateCache (reg : Registry) (netid : Nat) (c c2 : Cache)
    (h : find_named_cache reg netid = some c) :
    find_named_cache (updateCache reg netid c2) netid = some c2 := by
  induction reg with
  | nil => simp [find_named_cache] at h
  | cons p rest ih =>
    cases hpb : (p.1 == netid) with
    | true =>
      have hpeq : p.1 = netid := by simpa using hpb
      simp [find_named_cache, updateCache, hpeq]
    | false =>
      have h2 : find_named_cache rest netid = some c := by
        unfold find_named_cache at h
        rwa [List.find?_cons_of_neg _ (by simp [hpb])] at h
      have h3 := ih h2
      unfold find_named_cache updateCache at h3 ⊢
      simp only [List.map_cons, hpb, Bool.false_eq_true, if_false]
      rw [List.find?_cons_of_neg _ (by simp [hpb])]
      exact h3

/-- Claim C1 as amended: if the add succeeds (returns 0), the extracted TTL
is positive, and the query compares equal to itself under the canonical
comparison, then an immediate lookup with a large enough buffer finds the
entry and yields exactly the added answer bytes. -/
theorem resolv_cache_add_then_lookup_found (reg : Registry) (netid : Nat)
    (q a : List Nat) (p : Option DnsMsg) (now answersize : Nat) (cache : Cache)
    (hfind : find_named_cache reg netid = some cache)
    (hq : _dnsPacket_checkQuery q = true)
    (hself : _dnsPacket_isEqualQuery q q = true)
    (httl : 0 < answer_getTTL p)
    (hbuf : a.length ≤ answersize)
    (hzero : (resolv_cache_add reg netid q a p now).1 = 0) :
    (resolv_cache_lookup (resolv_cache_add reg netid q a p now).2 netid q answersize
        { noCacheStore := false, noCacheLookup := false } now).status =
      ResolvCacheStatus.FOUND ∧
    (resolv_cache_lookup (resolv_cache_add reg netid q a p now).2 netid q answersize
        { noCacheStore := false, noCacheLookup := false } now).answer = some a := by
  rcases hdup : cacheFind cache q with _ | e
  · have h1 : cacheFind (cacheEvictForAdd cache now) q = none :=
      cacheFind_evict_none _ _ _ hdup
    have hAdd : (resolv_cache_add reg netid q a p now).2 =
        updateCache reg netid
          (notifyWaiting
            { cacheEvictForAdd cache now with
              entries :=
                { hash := _dnsPacket_hashQuery q, query := q, answer := a,
                  expires := answer_getTTL p + now,
                  id := (cacheEvictForAdd cache now).last_id + 1 } ::
                  (cacheEvictForAdd cache now).entries
              last_id := (cacheEvictForAdd cache now).last_id + 1 }
            (_dnsPacket_hashQuery q)) := by
      unfold resolv_cache_add
      simp [hq, hfind, hdup, h1]
      rw [if_pos httl]
    rw [hAdd]
    unfold resolv_cache_lookup
    rw [find_named_cache_updateCache reg netid cache _ hfind]
    simp only [notifyWaiting, cacheFind, List.find?_cons, entryMatches, entry_equals,
      beq_self_eq_true, hself, Bool.and_true, Bool.and_self, if_true, hq]
    rw [if_neg (by omega : ¬ (answer_getTTL p + now ≤ now))]
    rw [if_neg (by omega : ¬ (answersize < a.length))]
    exact ⟨rfl, rfl⟩
  · exfalso
    unfold resolv_cache_add at hzero
    simp [hq, hfind, hdup] at hzero

/-- A fresh registry holding only network 30 with an empty cache. -/
def c1Reg : Registry := [(30, resolv_cache_create)]

/-- A parsed answer with one answer record of TTL 60. -/
def c1Msg : DnsMsg := { an := [AnRR.ok 60], ns := [] }

/-- Claim C1 witness: add the TTL-60 answer for qA on network 30, then look
it up immediately. -/
theorem resolv_cache_add_then_lookup_found_witness :
    (resolv_cache_lookup (resolv_cache_add c1Reg 30 qA [7, 7] (some c1Msg) 5).2 30 qA 10
        { noCacheStore := false, noCacheLookup := false } 5).status =
      ResolvCacheStatus.FOUND ∧
    (resolv_cache_lookup (resolv_cache_add c1Reg 30 qA [7, 7] (some c1Msg) 5).2 30 qA 10
        { noCacheStore := false, noCacheLookup := false } 5).answer = some [7, 7] :=
  resolv_cache_add_then_lookup_found c1Reg 30 qA [7, 7] (some c1Msg) 5 10
    resolv_cache_create (by decide) (by decide) (by decide) (by decide) (by decide) (by decide)

/-- A parsed answer with no records at all: its TTL is 0, so
resolv_cache_add stores nothing although it returns 0. -/
def c1ZeroMsg : DnsMsg := { an := [], ns := [] }

/-- Claim C1 counterexample: with a TTL-0 answer, add returns 0 but the
immediately following lookup returns NOTFOUND instead of FOUND, so the
claim as stated (returns 0 implies FOUND) is false. -/
theorem resolv_cache_add_then_lookup_found_cex :
    (resolv_cache_add c1Reg 30 qA [7, 7] (some c1ZeroMsg) 5).1 = 0 ∧
    (resolv_cache_lookup (resolv_cache_add c1Reg 30 qA [7, 7] (some c1ZeroMsg) 5).2 30 qA 10
        { noCacheStore := false, noCacheLookup := false } 5).status =
      ResolvCacheStatus.NOTFOUND := by decide

/-- Bit 0 is inside the mask 0xFD, so agreement of two bytes outside the TC
bit (bit 1) forces agreement of their RD bits (bit 0). -/
theorem and1_of_and253 (x y : Nat) (h : x &&& 253 = y &&& 253) : x &&& 1 = y &&& 1 := by
  have h253 : (253 : Nat) &&& 1 = 1 := by decide
  calc x &&& 1 = x &&& (253 &&& 1) := by rw [h253]
    _ = x &&& 253 &&& 1 := (Nat.and_assoc x 253 1).symm
    _ = y &&& 253 &&& 1 := by rw [h]
    _ = y &&& (253 &&& 1) := Nat.and_assoc y 253 1
    _ = y &&& 1 := by rw [h253]

/-- Byte 3 is determined by the tail from byte 3 on. -/
theorem getD3_of_drop3 (m q : List Nat) (h : m.drop 3 = q.drop 3) :
    m.getD 3 0 = q.getD 3 0 := by
  have hm : m.getD 3 0 = (m.drop 3).getD 0 0 := by
    rcases m with _ | ⟨a, _ | ⟨b, _ | ⟨c, rest⟩⟩⟩ <;> simp [List.getD]
  have hq2 : q.getD 3 0 = (q.drop 3).getD 0 0 := by
    rcases q with _ | ⟨a, _ | ⟨b, _ | ⟨c, rest⟩⟩⟩ <;> simp [List.getD]
  rw [hm, hq2, h]

/-- Agreement from byte 3 gives agreement from byte 4. -/
theorem drop4_of_drop3 (m q : List Nat) (h : m.drop 3 = q.drop 3) :
    m.drop 4 = q.drop 4 := by
  have hm : m.drop 4 = (m.drop 3).drop 1 := by rw [List.drop_drop]
  have hq2 : q.drop 4 = (q.drop 3).drop 1 := by rw [List.drop_drop]
  rw [hm, hq2, h]

/-- Claim C7 as amended: for a validated query q and any two variants that
agree with q outside the 16-bit transaction id (bytes 0 and 1) and the TC
bit (bit 1 of byte 2), the FNV fingerprint hash of a variant equals the
hash of q, and the canonical comparison of the two variants equals the
comparison of q with itself (in particular the variants compare equal
whenever q is self-equal). -/
theorem fingerprint_stable_under_id_tc (q m1 m2 : List Nat)
    (hq : _dnsPacket_checkQuery q = true)
    (h21 : m1.getD 2 0 &&& 0xFD = q.getD 2 0 &&& 0xFD)
    (h22 : m2.getD 2 0 &&& 0xFD = q.getD 2 0 &&& 0xFD)
    (hd1 : m1.drop 3 = q.drop 3) (hd2 : m2.drop 3 = q.drop 3) :
    _dnsPacket_hashQuery m1 = _dnsPacket_hashQuery q ∧
    _dnsPacket_isEqualQuery m1 m2 = _dnsPacket_isEqualQuery q q := by
  have e1 : m1.getD 2 0 &&& 1 = q.getD 2 0 &&& 1 := and1_of_and253 _ _ h21
  have e2 : m2.getD 2 0 &&& 1 = q.getD 2 0 &&& 1 := and1_of_and253 _ _ h22
  have g1 : m1.getD 3 0 = q.getD 3 0 := getD3_of_drop3 _ _ hd1
  have g2 : m2.getD 3 0 = q.getD 3 0 := getD3_of_drop3 _ _ hd2
  have d41 : m1.drop 4 = q.drop 4 := drop4_of_drop3 _ _ hd1
  have d42 : m2.drop 4 = q.drop 4 := drop4_of_drop3 _ _ hd2
  constructor
  · unfold _dnsPacket_hashQuery
    rw [e1, hd1]
  · unfold _dnsPacket_isEqualQuery
    rw [e1, e2, g1, g2, d41, d42]

/-- Variant of qA with transaction id (7, 9) and the TC bit set. -/
def qAIdTc : List Nat := [7, 9, 2, 0, 0, 1, 0, 0, 0, 0, 0, 0, 1, 97, 0, 0, 1, 0, 1]

/-- Variant of qA with transaction id (255, 255) and the TC bit clear. -/
def qAId2 : List Nat := [255, 255, 0, 0, 0, 1, 0, 0, 0, 0, 0, 0, 1, 97, 0, 0, 1, 0, 1]

/-- Claim C7 witness: the amended statement at qA and two of its id/TC
variants. -/
theorem fingerprint_stable_under_id_tc_witness :
    _dnsPacket_hashQuery qAIdTc = _dnsPacket_hashQuery qA ∧
    _dnsPacket_isEqualQuery qAIdTc qAId2 = _dnsPacket_isEqualQuery qA qA :=
  fingerprint_stable_under_id_tc qA qAIdTc qAId2
    (by decide) (by decide) (by decide) (by decide) (by decide)

/-- A query that passes validation although its single additional record
carries a compressed (pointer) name: the validator never walks the
additional section. -/
def c7Bad : List Nat :=
  [0, 0, 0, 0, 0, 1, 0, 0, 0, 0, 0, 1,
   1, 97, 0, 0, 1, 0, 1,
   192, 12, 0, 1, 0, 1, 0, 0, 0, 0, 0, 0]

/-- The same packet with the transaction id mutated to (7, 9). -/
def c7BadM : List Nat :=
  [7, 9, 0, 0, 0, 1, 0, 0, 0, 0, 0, 1,
   1, 97, 0, 0, 1, 0, 1,
   192, 12, 0, 1, 0, 1, 0, 0, 0, 0, 0, 0]

/-- Claim C7 counterexample: c7Bad passes validation and c7BadM is one of
its transaction-id mutants (c7Bad itself being the untouched variant), yet
the two variants do not compare equal: the comparison walks the additional
record, meets the pointer byte 192 and fails, so the claimed equality of
mutated variants does not hold for every validated query. -/
theorem fingerprint_variants_not_equal_cex :
    _dnsPacket_checkQuery c7Bad = true ∧
    c7BadM.getD 2 0 &&& 0xFD = c7Bad.getD 2 0 &&& 0xFD ∧
    c7BadM.drop 3 = c7Bad.drop 3 ∧
    _dnsPacket_isEqualQuery c7Bad c7BadM = false := by decide

/-- Cache-surface operations of claim C8. -/
inductive CacheOp where
  | look (netid : Nat) (q : List Nat) (answersize : Nat) (flags : Flags) (now : Nat)
  | add (netid : Nat) (q a : List Nat) (p : Option DnsMsg) (now : Nat)
  | queryFailed (netid : Nat) (q : List Nat) (flags : Flags)
  | flushNet (netid : Nat)

/-- State transition of one operation (the registry part of each call). -/
def applyCacheOp (reg : Registry) : CacheOp → Registry
  | .look netid q answersize flags now => (resolv_cache_lookup reg netid q answersize flags now).reg
  | .add netid q a p now => (resolv_cache_add reg netid q a p now).2
  | .queryFailed netid q flags => _resolv_cache_query_failed reg netid q flags
  | .flushNet netid => resolv_flush_cache_for_net reg netid

/-- Registry-wide invariant: no pending-request list repeats a hash. -/
def PendingNodup (reg : Registry) : Prop := ∀ pr ∈ reg, pr.2.pending.Nodup

theorem pendingNodup_updateCache (reg : Registry) (netid : Nat) (c : Cache)
    (hreg : PendingNodup reg) (hc : c.pending.Nodup) :
    PendingNodup (updateCache reg netid c) := by
  intro pr hpr
  rcases List.mem_map.mp hpr with ⟨pr0, hmem, heq⟩
  by_cases hp : (pr0.1 == netid) = true
  · rw [← heq]
    simp only [hp, if_true]
    exact hc
  · rw [← heq]
    simp only [hp, if_false]
    exact hreg pr0 hmem

theorem find_named_cache_mem (reg : Registry) (netid : Nat) (c : Cache)
    (h : find_named_cache reg netid = some c) : ∃ pr ∈ reg, pr.2 = c := by
  unfold find_named_cache at h
  cases hf : reg.find? (fun p => p.1 == netid) with
  | none => rw [hf] at h; simp at h
  | some pr =>
    rw [hf] at h
    simp only [Option.some.injEq] at h
    exact ⟨pr, List.mem_of_find?_eq_some hf, h⟩

theorem pendingNodup_lookup (reg : Registry) (netid : Nat) (q : List Nat)
    (answersize : Nat) (flags : Flags) (now : Nat) (hreg : PendingNodup reg) :
    PendingNodup (resolv_cache_lookup reg netid q answersize flags now).reg := by
  unfold resolv_cache_lookup
  cases hfl : flags.noCacheLookup with
  | true => simp only [hfl, if_true]; exact hreg
  | false =>
  simp only [hfl, Bool.false_eq_true, if_false]
  cases hqb : _dnsPacket_checkQuery q with
  | false => simp only [hqb, Bool.false_eq_true, not_false_iff, if_true]; exact hreg
  | true =>
  simp only [hqb, not_true, if_false]
  cases hfc : find_named_cache reg netid with
  | none => exact hreg
  | some cache =>
  have hcached : cache.pending.Nodup := by
    rcases find_named_cache_mem reg netid cache hfc with ⟨pr, hmem, hpr⟩
    rw [← hpr]; exact hreg pr hmem
  simp only []
  cases hcf : cacheFind cache q with
  | none =>
    cases hst : flags.noCacheStore with
    | true => simp only [hst, if_true]; exact hreg
    | false =>
    simp only [hst, Bool.false_eq_true, if_false]
    by_cases hmemp : _dnsPacket_hashQuery q ∈ cache.pending
    · simp only [hmemp, if_true]; exact hreg
    · simp only [hmemp, if_false]
      refine pendingNodup_updateCache reg netid _ hreg ?_
      simp [List.nodup_append, hcached, hmemp]
  | some e =>
    by_cases hexp : e.expires ≤ now
    · simp only [hexp, if_true]
      exact pendingNodup_updateCache reg netid _ hreg hcached
    · simp only [hexp, if_false]
      by_cases hsz : answersize < e.answer.length
      · simp only [hsz, if_true]; exact hreg
      · simp only [hsz, if_false]
        exact pendingNodup_updateCache reg netid _ hreg hcached

theorem pendingNodup_add (reg : Registry) (netid : Nat) (q a : List Nat)
    (p : Option DnsMsg) (now : Nat) (hreg : PendingNodup reg) :
    PendingNodup (resolv_cache_add reg netid q a p now).2 := by
  unfold resolv_cache_add
  cases hqb : _dnsPacket_checkQuery q with
  | false => simp only [hqb, Bool.false_eq_true, not_false_iff, if_true]; exact hreg
  | true =>
  simp only [hqb, not_true, if_false]
  cases hfc : find_named_cache reg netid with
  | none => exact hreg
  | some cache =>
  have hcached : cache.pending.Nodup := by
    rcases find_named_cache_mem reg netid cache hfc with ⟨pr, hmem, hpr⟩
    rw [← hpr]; exact hreg pr hmem
  have hevict : (cacheEvictForAdd cache now).pending.Nodup := by
    unfold cacheEvictForAdd
    split
    · dsimp only
      split <;> simpa [_cache_remove_oldest, _cache_remove_expired] using hcached
    · exact hcached
  simp only []
  cases hcf : cacheFind cache q with
  | some e =>
    exact pendingNodup_updateCache reg netid _ hreg (List.Nodup.erase _ hcached)
  | none =>
  cases hcf2 : cacheFind (cacheEvictForAdd cache now) q with
  | some e =>
    exact pendingNodup_updateCache reg netid _ hreg (List.Nodup.erase _ hevict)
  | none =>
  by_cases httl : 0 < answer_getTTL p
  · simp only [httl, if_true]
    exact pendingNodup_updateCache reg netid _ hreg (List.Nodup.erase _ hevict)
  · simp only [httl, if_false]
    exact pendingNodup_updateCache reg netid _ hreg (List.Nodup.erase _ hevict)

theorem pendingNodup_queryFailed (reg : Registry) (netid : Nat) (q : List Nat)
    (flags : Flags) (hreg : PendingNodup reg) :
    PendingNodup (_resolv_cache_query_failed reg netid q flags) := by
  unfold _resolv_cache_query_failed
  split
  · exact hreg
  split
  · exact hreg
  cases hfc : find_named_cache reg netid with
  | none => exact hreg
  | some cache =>
  have hcached : cache.pending.Nodup := by
    rcases find_named_cache_mem reg netid cache hfc with ⟨pr, hmem, hpr⟩
    rw [← hpr]; exact hreg pr hmem
  exact pendingNodup_updateCache reg netid _ hreg (List.Nodup.erase _ hcached)

theorem pendingNodup_flush (reg : Registry) (netid : Nat) (hreg : PendingNodup reg) :
    PendingNodup (resolv_flush_cache_for_net reg netid) := by
  unfold resolv_flush_cache_for_net
  cases hfc : find_named_cache reg netid with
  | none => exact hreg
  | some cache =>
  exact pendingNodup_updateCache reg netid _ hreg (by simp [cache_flush_locked])

theorem pendingNodup_apply (reg : Registry) (op : CacheOp) (hreg : PendingNodup reg) :
    PendingNodup (applyCacheOp reg op) := by
  cases op with
  | look netid q answersize flags now => exact pendingNodup_lookup reg netid q answersize flags now hreg
  | add netid q a p now => exact pendingNodup_add reg netid q a p now hreg
  | queryFailed netid q flags => exact pendingNodup_queryFailed reg netid q flags hreg
  | flushNet netid => exact pendingNodup_flush reg netid hreg

/-- Claim C8: starting from a registry where every pending list holds each
hash at most once (freshly created caches have no pending records at all),
after any sequence of lookup, add, query_failed and flush operations every
network still has at most one pending record per hash.  Since the sequence
is arbitrary, this holds at every intermediate point as well. -/
theorem cache_pending_at_most_one (ops : List CacheOp) (reg : Registry)
    (pr : Nat × Cache) (h : Nat)
    (hinit : ∀ pr2 ∈ reg, ∀ h2 : Nat, pr2.2.pending.count h2 ≤ 1)
    (hmem : pr ∈ ops.foldl applyCacheOp reg) :
    pr.2.pending.count h ≤ 1 := by
  have hstart : PendingNodup reg := by
    intro pr2 hpr2
    exact List.nodup_iff_count_le_one.mpr (hinit pr2 hpr2)
  have hfinal : PendingNodup (ops.foldl applyCacheOp reg) := by
    clear hmem hinit
    induction ops generalizing reg with
    | nil => exact hstart
    | cons op rest ih => exact ih _ (pendingNodup_apply reg op hstart)
  exact List.nodup_iff_count_le_one.mp (hfinal pr hmem) h

/-- Claim C8 witness operations: two lookups for qA (the first registers a
pending record, the second meets it) followed by the add that removes it. -/
def c8Ops : List CacheOp :=
  [CacheOp.look 30 qA 100 { noCacheStore := false, noCacheLookup := false } 0,
   CacheOp.look 30 qA 100 { noCacheStore := false, noCacheLookup := false } 0,
   CacheOp.add 30 qA [9] none 0]

/-- Claim C8 witness: the invariant applied to the final state of c8Ops on
a fresh network 30. -/
theorem cache_pending_at_most_one_witness :
    ((30 : Nat), ({ max_entries := 640, entries := [], last_id := 0, pending := [] } : Cache)).2.pending.count 7 ≤ 1 :=
  cache_pending_at_most_one c8Ops [(30, resolv_cache_create)]
    (30, { max_entries := 640, entries := [], last_id := 0, pending := [] }) 7
    (by
      intro pr2 hpr2 h2
      rw [List.mem_singleton] at hpr2
      subst hpr2
      simp [resolv_cache_create])
    (by decide)
